import Mathlib

/-!
Verification of the HRMS payslip generator (src/hrms.py, src/config.py).

Modelling conventions for the shallow embedding:

* Monetary amounts and day counts are modelled as exact rationals (`ℚ`).
  The Python code computes with binary floats; the specification (§4.2)
  prescribes decimal/fixed-precision arithmetic, so the embedding uses exact
  arithmetic.  Claims about displayed figures are settled on the exact
  values that the code computes and accumulates.
* Python `//` and `%` on integers are floor division and nonnegative-remainder
  modulus.  All divisors appearing in `num_to_words_indian` are positive, so
  Lean's `Int` `/` and `%` (Euclidean, which agree with floor division for
  positive divisors) model them exactly.
* Python list indexing `xs[i]` raises `IndexError` when `i` is out of range;
  it is modelled by `List.get?`, and any raised exception that the source does
  not catch is modelled by an `Option` result of `none`.  Every index reaching
  a table lookup in the source is nonnegative (each is produced by `%` with a
  positive modulus, or guarded by `n >= 100`), so `Int.toNat` is exact there.
* A spreadsheet cell is `Cell`: `num q` for a value `float` accepts,
  `text s` for a value `float` rejects with `ValueError` (e.g. an arbitrary
  string), and `missing` for an absent key or a NaN cell — for every field
  read by the code, `row.get(label, 0)` followed by the `pd.notna` test sends
  both of those to `0.0`.  (For the two working-day cells a NaN cell would
  yield a float NaN rather than an exception; every comparison on NaN is
  false, so the prorated amounts coincide with the `0.0` case modelled here.)
-/

namespace Hrms

/-- Table `ones` of `num_to_words_indian` (src/hrms.py lines 126–127). -/
def ones : List String :=
  ["", "One", "Two", "Three", "Four", "Five", "Six", "Seven", "Eight", "Nine",
   "Ten", "Eleven", "Twelve", "Thirteen", "Fourteen", "Fifteen", "Sixteen",
   "Seventeen", "Eighteen", "Nineteen"]

/-- Table `tens` of `num_to_words_indian` (src/hrms.py line 128). -/
def tens : List String :=
  ["", "", "Twenty", "Thirty", "Forty", "Fifty", "Sixty", "Seventy", "Eighty",
   "Ninety"]

/-- Inner helper `two(n)` of `num_to_words_indian` (src/hrms.py lines 129–133).
Every call site passes a result of `% 100`, hence a nonnegative argument. -/
def two (n : ℤ) : Option String :=
  if n < 20 then ones.get? n.toNat
  else do
    let t ← tens.get? (n / 10).toNat
    let o ← ones.get? (n % 10).toNat
    pure (t ++ (if n % 10 = 0 then "" else " " ++ o))

/-- Inner helper `three(n)` of `num_to_words_indian` (src/hrms.py lines
134–142): a "Hundred" part when `n >= 100`, then the last two digits. -/
def three (n : ℤ) : Option String := do
  let s1 ← if 100 ≤ n then do
      let h ← ones.get? (n / 100).toNat
      pure (h ++ " Hundred" ++ (if n % 100 = 0 then "" else " "))
    else pure ""
  let s2 ← if n % 100 = 0 then pure "" else two (n % 100)
  pure (s1 ++ s2)

/-- The Numeral Localizer `num_to_words_indian(n)` (src/hrms.py lines
124–160): crore/lakh/thousand/remainder decomposition, groups with value `0`
omitted, joined by single spaces. -/
def num_to_words_indian (n : ℤ) : Option String :=
  if n = 0 then some "Zero"
  else do
    let crore := n / 10000000
    let p1 ← if crore = 0 then pure ([] : List String)
      else do
        let s ← three crore
        pure [s ++ " Crore"]
    let n1 := n % 10000000
    let lakh := n1 / 100000
    let p2 ← if lakh = 0 then pure ([] : List String)
      else do
        let s ← three lakh
        pure [s ++ " Lakh"]
    let n2 := n1 % 100000
    let thousand := n2 / 1000
    let p3 ← if thousand = 0 then pure ([] : List String)
      else do
        let s ← three thousand
        pure [s ++ " Thousand"]
    let n3 := n2 % 1000
    let p4 ← if n3 = 0 then pure ([] : List String)
      else do
        let s ← three n3
        pure [s]
    pure (String.intercalate " " (p1 ++ p2 ++ p3 ++ p4))

/-- Spelling of a two-digit value following the specification's words
(§4.1): values 1–19 from the irregular table, then tens-word plus ones-word.
Total counterpart of `two`, used by the refinement statement for claim C6. -/
def specSpellTwo (n : ℤ) : String :=
  if n < 20 then ones.getD n.toNat ""
  else tens.getD (n / 10).toNat "" ++
    (if n % 10 = 0 then "" else " " ++ ones.getD (n % 10).toNat "")

/-- Spelling of one group value following the specification's words (§4.1):
the ones/teens/tens table plus a "Hundred" suffix when the group is ≥ 100.
Total counterpart of `three`. -/
def specSpellGroup (n : ℤ) : String :=
  (if 100 ≤ n then
      ones.getD (n / 100).toNat "" ++ " Hundred" ++ (if n % 100 = 0 then "" else " ")
    else "") ++
  (if n % 100 = 0 then "" else specSpellTwo (n % 100))

/-- Modelled from the spec's words for claim C6: decompose `n` into crore,
lakh, thousand and remainder groups, most significant first, with the scale
word appended directly after each group's spelled value. -/
def specGroupList (n : ℤ) : List (ℤ × String) :=
  [(n / 10000000, " Crore"),
   (n % 10000000 / 100000, " Lakh"),
   (n % 100000 / 1000, " Thousand"),
   (n % 1000, "")]

/-- Modelled from the spec's words for claim C6: `0` maps to "Zero"; otherwise
omit the groups whose value is zero and join the spelled groups (scale word
appended) with single spaces, in descending order of magnitude. -/
def specWords (n : ℤ) : String :=
  if n = 0 then "Zero"
  else String.intercalate " "
    (((specGroupList n).filter (fun g => g.1 ≠ 0)).map
      (fun g => specSpellGroup g.1 ++ g.2))

/-- One spreadsheet cell as seen by the numeric reads of the code.
`missing` covers an absent column and a NaN cell (both are sent to `0.0` by
the `row.get(label, 0)` / `pd.notna` pattern), `num q` a value accepted by
`float`, `text s` a value on which `float` raises `ValueError`. -/
inductive Cell
  | missing
  | num (q : ℚ)
  | text (s : String)
deriving DecidableEq

/-- The numeric fields of one employee row that the payslip computation of
`create_payslip_pdf` reads (src/hrms.py lines 326–453). -/
structure Row where
  basic : Cell
  hra : Cell
  special_allowance : Cell
  medical_allowance : Cell
  transport_allowance : Cell
  professional_allowance : Cell
  performance_pay : Cell
  courier_reimb : Cell
  performance_bonus : Cell
  professional_tax : Cell
  pf : Cell
  performance_bonus_recovery : Cell
  total_working_days : Cell
  actual_payable_days : Cell
deriving DecidableEq

/-- Python `float(row.get(label, 0))`: `0.0` for an absent key, the value for
a number, a `ValueError` (modelled `none`) for an unparseable string. -/
def pyFloat (c : Cell) : Option ℚ :=
  match c with
  | Cell.missing => some 0
  | Cell.num q => some q
  | Cell.text _ => none

/-- The guarded earnings parse (src/hrms.py lines 385–389 and 400–404):
`float(amt) if pd.notna(amt) else 0.0` wrapped in `try/except`, so every
missing or unparseable cell becomes `0.0`. -/
def float_or_zero (c : Cell) : ℚ :=
  match c with
  | Cell.num q => q
  | _ => 0

/-- The unguarded parse `float(row.get(label, 0)) if pd.notna(...) else 0.0`
(src/hrms.py lines 411, 431, 437, 444): a NaN or absent cell becomes `0.0`,
but an unparseable string raises `ValueError` — there is no `try/except`
around these four sites. -/
def float_if_notna (c : Cell) : Option ℚ :=
  match c with
  | Cell.missing => some 0
  | Cell.num q => some q
  | Cell.text _ => none

/-- The working-day parse (src/hrms.py lines 326–331): one `try` block reads
both cells, so if either `float` raises, both values are set to `0.0`. -/
def parse_working_days (twd apd : Cell) : ℚ × ℚ :=
  match pyFloat twd, pyFloat apd with
  | some t, some a => (t, a)
  | _, _ => (0, 0)

/-- The proration expression (src/hrms.py line 391):
`(amt_f / total_working_days) * actual_payable_days if total_working_days > 0
else 0`.  Argument order follows the spec's contract (§4.2). -/
def prorate (fullAmount totalWorkingDays payableDays : ℚ) : ℚ :=
  if totalWorkingDays > 0 then fullAmount / totalWorkingDays * payableDays
  else 0

/-- Python's built-in `round` to an integer: round half to even. -/
def pythonRound (q : ℚ) : ℤ :=
  let f := ⌊q⌋
  if q - f < 1/2 then f
  else if 1/2 < q - f then f + 1
  else if f % 2 = 0 then f else f + 1

/-- The `prorate_items` loop of `create_payslip_pdf` (src/hrms.py lines
383–396): the three displayed prorated earning line items, in source order,
with the labels the code draws. -/
def prorated_earnings (r : Row) : List (String × ℚ) :=
  let d := parse_working_days r.total_working_days r.actual_payable_days
  [("Basic", prorate (float_or_zero r.basic) d.1 d.2),
   ("HRA", prorate (float_or_zero r.hra) d.1 d.2),
   ("Special Allowance", prorate (float_or_zero r.special_allowance) d.1 d.2)]

/-- The `non_prorate_items` loop of `create_payslip_pdf` (src/hrms.py lines
398–409): the five verbatim earning line items, in source order. -/
def non_prorated_earnings (r : Row) : List (String × ℚ) :=
  [("Medical Allowance", float_or_zero r.medical_allowance),
   ("Transport Allowance", float_or_zero r.transport_allowance),
   ("Professional Allowance", float_or_zero r.professional_allowance),
   ("Performance Pay", float_or_zero r.performance_pay),
   ("Courier Reimb", float_or_zero r.courier_reimb)]

/-- All displayed earning line items (src/hrms.py lines 383–416): the two
loops followed by the conditional Performance Bonus item. -/
def earning_items (r : Row) (pb_earn : ℚ) : List (String × ℚ) :=
  prorated_earnings r ++ non_prorated_earnings r ++
    (if pb_earn > 0 then [("Performance Bonus", pb_earn)] else [])

/-- The running `total_earn += ...` accumulation of `create_payslip_pdf`
(src/hrms.py lines 380, 396, 409, 416): one addition per displayed earning
item, in display order. -/
def earn_total (r : Row) (pb_earn : ℚ) : ℚ :=
  (prorated_earnings r).foldl (fun acc x => acc + x.2) 0 +
    (non_prorated_earnings r).foldl (fun acc x => acc + x.2) 0 +
    (if pb_earn > 0 then pb_earn else 0)

/-- All displayed deduction line items (src/hrms.py lines 431–449):
Professional Tax unconditionally, then PF and Performance Bonus Recovery when
strictly positive.  The code draws the recovery item with the label
"Performance Bonus" (line 446). -/
def deduction_items (pt_amt pf_amt pb_recovery : ℚ) : List (String × ℚ) :=
  [("Professional Tax", pt_amt)] ++
    (if pf_amt > 0 then [("PF (Provident Fund)", pf_amt)] else []) ++
    (if pb_recovery > 0 then [("Performance Bonus", pb_recovery)] else [])

/-- The running `total_ded += ...` accumulation (src/hrms.py lines 427, 435,
442, 449). -/
def ded_total (pt_amt pf_amt pb_recovery : ℚ) : ℚ :=
  pt_amt + (if pf_amt > 0 then pf_amt else 0) +
    (if pb_recovery > 0 then pb_recovery else 0)

/-- The render-ready payslip data computed by `create_payslip_pdf`: the
displayed earning and deduction line items (label, amount), the displayed
day figures, the accumulated totals, the net salary and the
net-salary-in-words string. -/
structure PayslipModel where
  earnings : List (String × ℚ)
  deductions : List (String × ℚ)
  total_working_days : ℚ
  actual_payable_days : ℚ
  loss_of_pay_days : ℚ
  total_earn : ℚ
  total_ded : ℚ
  net_salary : ℚ
  net_in_words : String
deriving DecidableEq

/-- The computation core of `create_payslip_pdf` (src/hrms.py lines 326–473),
with the drawing calls stripped: it collects exactly the line items the code
draws, accumulates `total_earn`/`total_ded` exactly as the code's `+=` does,
and produces the net salary and its word form.  A `none` result models an
uncaught exception escaping the function. -/
def create_payslip_pdf (r : Row) : Option PayslipModel :=
  -- working-day figures (lines 326–334)
  let days := parse_working_days r.total_working_days r.actual_payable_days
  -- Performance Bonus earning (lines 411–416)
  match float_if_notna r.performance_bonus with
  | none => none
  | some pb_earn =>
    -- deductions block (lines 427–453)
    match float_if_notna r.professional_tax with
    | none => none
    | some pt_amt =>
      match float_if_notna r.pf with
      | none => none
      | some pf_raw =>
        match float_if_notna r.performance_bonus_recovery with
        | none => none
        | some pb_recovery =>
          let pf_amt := if pf_raw > 0 then pf_raw else 0
          -- summary section (lines 461–473)
          let net_salary := earn_total r pb_earn - ded_total pt_amt pf_amt pb_recovery
          match num_to_words_indian (pythonRound net_salary) with
          | none => none
          | some w =>
            some
              { earnings := earning_items r pb_earn
                deductions := deduction_items pt_amt pf_amt pb_recovery
                total_working_days := days.1
                actual_payable_days := days.2
                loss_of_pay_days := days.1 - days.2
                total_earn := earn_total r pb_earn
                total_ded := ded_total pt_amt pf_amt pb_recovery
                net_salary := net_salary
                net_in_words := w ++ " only" }

/-- A calendar date as handled by `main` (year, month 1–12, day 1–31).  The
time-of-day component of the Python datetimes never affects the month loop:
both loop bounds are anchored to day 1 and compared, and a joining-date
anchor at midnight never exceeds a same-month current-date anchor. -/
structure PyDate where
  year : Nat
  month : Nat
  day : Nat
deriving DecidableEq

/-- Python datetime `<` restricted to dates: lexicographic on
(year, month, day). -/
def pyDateLt (a b : PyDate) : Bool :=
  a.year < b.year ||
    (a.year == b.year &&
      (a.month < b.month || (a.month == b.month && a.day < b.day)))

/-- Number of the month (y, m) counted from month 1 of year 0; the datetime
order on first-of-month anchors coincides with the order of this index
(lemma `monthIndex_le_iff`). -/
def monthIndex (ym : Nat × Nat) : Nat := 12 * ym.1 + (ym.2 - 1)

/-- The month with index `k`. -/
def fromIndex (k : Nat) : Nat × Nat := (k / 12, k % 12 + 1)

/-- The loop step `start.replace(day=28) + Timedelta(days=4)` then
`.replace(day=1)` (src/hrms.py lines 571–572): day 28 plus four days lands in
the following month for every month length (28+4 = 32 > 31), so the step
advances exactly one calendar month, rolling over year boundaries. -/
def nextMonth (ym : Nat × Nat) : Nat × Nat :=
  if ym.2 = 12 then (ym.1 + 1, 1) else (ym.1, ym.2 + 1)

/-- The `while start <= end` loop of `main` (src/hrms.py lines 569–572),
with the iteration count supplied as structural fuel; `resolvePeriods` passes
exactly the number of iterations the loop performs, which theorem
`resolvePeriods_all_months` proves by computing the produced list in full. -/
def resolveLoop : Nat → Nat × Nat → Nat × Nat → List (Nat × Nat)
  | 0, _, _ => []
  | fuel + 1, start, stop =>
    if monthIndex start ≤ monthIndex stop then
      start :: resolveLoop fuel (nextMonth start) stop
    else []

/-- The Period Resolver for `allPastPeriods = true` (src/hrms.py lines
564–572): anchor the joining and current dates to the first of their months
and collect every month while `start <= end`. -/
def resolvePeriods (joining current : PyDate) : List (Nat × Nat) :=
  let start := (joining.year, joining.month)
  let stop := (current.year, current.month)
  resolveLoop (monthIndex stop + 1 - monthIndex start) start stop

/-- The template employee row of `create_dummy_excel` (src/hrms.py lines
86–100) with 10 payable of 20 working days; used to witness the composer
theorems on a concrete input. -/
def sampleRow : Row :=
  { basic := Cell.num 23500
    hra := Cell.num 11750
    special_allowance := Cell.num 3100
    medical_allowance := Cell.num 4700
    transport_allowance := Cell.num 1600
    professional_allowance := Cell.num 1175
    performance_pay := Cell.num 1175
    courier_reimb := Cell.num 1200
    performance_bonus := Cell.num 1000
    professional_tax := Cell.num 200
    pf := Cell.num 500
    performance_bonus_recovery := Cell.num 0
    total_working_days := Cell.num 20
    actual_payable_days := Cell.num 10 }

/-- The payslip model the code computes for `sampleRow`. -/
def sampleModel : PayslipModel :=
  { earnings :=
      [("Basic", 11750), ("HRA", 5875), ("Special Allowance", 1550),
       ("Medical Allowance", 4700), ("Transport Allowance", 1600),
       ("Professional Allowance", 1175), ("Performance Pay", 1175),
       ("Courier Reimb", 1200), ("Performance Bonus", 1000)]
    deductions := [("Professional Tax", 200), ("PF (Provident Fund)", 500)]
    total_working_days := 20
    actual_payable_days := 10
    loss_of_pay_days := 10
    total_earn := 30025
    total_ded := 700
    net_salary := 29325
    net_in_words := "Twenty Nine Thousand Three Hundred Twenty Five only" }

/-- Variant of `sampleRow` with an unparseable Total Working Days cell; used to witness
the bad-day-cell behaviour of claim C10. -/
def badDaysRow : Row :=
  { sampleRow with total_working_days := Cell.text "N/A" }

/-- The payslip model the code computes for `badDaysRow`: day figures zeroed,
prorated earnings zero, everything else unchanged. -/
def badDaysModel : PayslipModel :=
  { earnings :=
      [("Basic", 0), ("HRA", 0), ("Special Allowance", 0),
       ("Medical Allowance", 4700), ("Transport Allowance", 1600),
       ("Professional Allowance", 1175), ("Performance Pay", 1175),
       ("Courier Reimb", 1200), ("Performance Bonus", 1000)]
    deductions := [("Professional Tax", 200), ("PF (Provident Fund)", 500)]
    total_working_days := 0
    actual_payable_days := 0
    loss_of_pay_days := 0
    total_earn := 10850
    total_ded := 700
    net_salary := 10150
    net_in_words := "Ten Thousand One Hundred Fifty only" }

/-- Variant of `sampleRow` with an unparseable Professional Tax cell; the failing input
of claim C9. -/
def badTaxRow : Row :=
  { sampleRow with professional_tax := Cell.text "abc" }

/-- C4: the proration function divides only when the divisor is positive,
agrees with `fullAmount * payableDays / totalWorkingDays` there, is `0` for a
non-positive divisor, is the identity for a full month, and is `0` for zero
payable days. -/
theorem prorate_correct (fullAmount totalWorkingDays payableDays : ℚ) :
    (0 < totalWorkingDays →
      prorate fullAmount totalWorkingDays payableDays =
        fullAmount * payableDays / totalWorkingDays) ∧
    (totalWorkingDays ≤ 0 →
      prorate fullAmount totalWorkingDays payableDays = 0) ∧
    (0 < totalWorkingDays →
      prorate fullAmount totalWorkingDays totalWorkingDays = fullAmount) ∧
    prorate fullAmount totalWorkingDays 0 = 0 := by
  unfold prorate
  refine ⟨fun h => ?_, fun h => ?_, fun h => ?_, ?_⟩
  · rw [if_pos h]; ring
  · rw [if_neg (by linarith)]
  · rw [if_pos h]
    field_simp
  · split_ifs <;> simp

/-- Witness for C4 at concrete inputs. -/
theorem prorate_correct_witness :
    ((0:ℚ) < 20 ∧ prorate 23500 20 10 = 23500 * 10 / 20) ∧
    ((0:ℚ) ≤ 0 ∧ prorate 23500 0 10 = 0) ∧
    ((0:ℚ) < 20 ∧ prorate 23500 20 20 = 23500) ∧
    prorate 23500 20 0 = 0 :=
  ⟨⟨by norm_num, (prorate_correct 23500 20 10).1 (by norm_num)⟩,
   ⟨le_refl 0, (prorate_correct 23500 0 10).2.1 (le_refl 0)⟩,
   ⟨by norm_num, (prorate_correct 23500 20 10).2.2.1 (by norm_num)⟩,
   (prorate_correct 23500 20 10).2.2.2⟩

/-- Advancing one month adds one to the month index (valid months). -/
lemma monthIndex_nextMonth (ym : Nat × Nat) (h1 : 1 ≤ ym.2) (h2 : ym.2 ≤ 12) :
    monthIndex (nextMonth ym) = monthIndex ym + 1 := by
  rcases ym with ⟨y, m⟩
  by_cases h : m = 12 <;> simp only [monthIndex, nextMonth, h] <;> simp <;> omega

/-- The month step keeps the month in 1–12. -/
lemma nextMonth_valid (ym : Nat × Nat) (h1 : 1 ≤ ym.2) (h2 : ym.2 ≤ 12) :
    1 ≤ (nextMonth ym).2 ∧ (nextMonth ym).2 ≤ 12 := by
  rcases ym with ⟨y, m⟩
  by_cases h : m = 12 <;> simp only [nextMonth, h] <;> simp <;> omega

/-- Decoding is a left inverse of the month index on valid months. -/
lemma fromIndex_monthIndex (ym : Nat × Nat) (h1 : 1 ≤ ym.2) (h2 : ym.2 ≤ 12) :
    fromIndex (monthIndex ym) = ym := by
  rcases ym with ⟨y, m⟩
  simp only [fromIndex, monthIndex, Prod.mk.injEq]
  omega

/-- Index successor decodes to the calendar month step. -/
lemma fromIndex_succ (k : Nat) : fromIndex (k + 1) = nextMonth (fromIndex k) := by
  simp only [fromIndex, nextMonth]
  split_ifs with h <;> simp only [Prod.mk.injEq] <;> omega

/-- The order of month indices is the lexicographic (year, month) order that
the source's `start <= end` datetime comparison implements on first-of-month
anchors. -/
lemma monthIndex_le_iff (a b : Nat × Nat)
    (ha1 : 1 ≤ a.2) (ha2 : a.2 ≤ 12) (hb1 : 1 ≤ b.2) (hb2 : b.2 ≤ 12) :
    monthIndex a ≤ monthIndex b ↔ a.1 < b.1 ∨ (a.1 = b.1 ∧ a.2 ≤ b.2) := by
  unfold monthIndex
  omega

/-- The month loop with exactly enough fuel produces the full index range. -/
lemma resolveLoop_eq :
    ∀ (n : Nat) (start stop : Nat × Nat), 1 ≤ start.2 → start.2 ≤ 12 →
      monthIndex start + n = monthIndex stop + 1 →
      resolveLoop n start stop =
        (List.range n).map (fun i => fromIndex (monthIndex start + i)) := by
  intro n
  induction n with
  | zero => intro s t _ _ _; simp [resolveLoop]
  | succ k ih =>
    intro s t h1 h2 hn
    have hle : monthIndex s ≤ monthIndex t := by omega
    have hv := nextMonth_valid s h1 h2
    have hstep := monthIndex_nextMonth s h1 h2
    rw [resolveLoop, if_pos hle, ih (nextMonth s) t hv.1 hv.2 (by omega)]
    rw [List.range_succ_eq_map, List.map_cons, List.map_map]
    congr 1
    · rw [Nat.add_zero, fromIndex_monthIndex s h1 h2]
    · refine List.map_congr_left fun i _ => ?_
      simp only [Function.comp_apply, hstep]
      congr 1
      omega

/-- Every index range decodes to a chain of single calendar-month steps. -/
lemma chain_fromIndex (n s : Nat) :
    List.Chain' (fun a b => b = nextMonth a)
      ((List.range n).map (fun i => fromIndex (s + i))) := by
  rw [List.chain'_map]
  cases n with
  | zero => simp
  | succ k =>
    rw [List.chain'_range_succ]
    intro m _
    rw [show s + (m + 1) = (s + m) + 1 by omega, fromIndex_succ]

/-- C7: with `allPastPeriods` true the resolver yields exactly the months from
the joining month through the current month, ascending, one index step (one
calendar month, `nextMonth`) at a time. -/
theorem resolvePeriods_all_months (j c : PyDate)
    (hj1 : 1 ≤ j.month) (hj2 : j.month ≤ 12)
    (hc1 : 1 ≤ c.month) (hc2 : c.month ≤ 12)
    (h : monthIndex (j.year, j.month) ≤ monthIndex (c.year, c.month)) :
    resolvePeriods j c =
      (List.range (monthIndex (c.year, c.month) + 1 - monthIndex (j.year, j.month))).map
        (fun i => fromIndex (monthIndex (j.year, j.month) + i)) ∧
    List.Chain' (fun a b => b = nextMonth a) (resolvePeriods j c) ∧
    (resolvePeriods j c).head? = some (j.year, j.month) := by
  have hmain : resolvePeriods j c =
      (List.range (monthIndex (c.year, c.month) + 1 - monthIndex (j.year, j.month))).map
        (fun i => fromIndex (monthIndex (j.year, j.month) + i)) := by
    unfold resolvePeriods
    exact resolveLoop_eq _ (j.year, j.month) (c.year, c.month) hj1 hj2 (by omega)
  refine ⟨hmain, ?_, ?_⟩
  · rw [hmain]; exact chain_fromIndex _ _
  · rw [hmain]
    obtain ⟨k, hk⟩ : ∃ k, monthIndex (c.year, c.month) + 1 - monthIndex (j.year, j.month)
        = k + 1 := ⟨monthIndex (c.year, c.month) - monthIndex (j.year, j.month), by omega⟩
    rw [hk, List.range_succ_eq_map, List.map_cons, List.head?_cons, Nat.add_zero,
      fromIndex_monthIndex (j.year, j.month) hj1 hj2]

/-- Witness for C7: the spec's example, joining 27-Aug-2025 and current
15-Nov-2025 produce exactly Aug, Sep, Oct, Nov 2025. -/
theorem resolvePeriods_all_months_witness :
    resolvePeriods ⟨2025, 8, 27⟩ ⟨2025, 11, 15⟩ =
      [(2025, 8), (2025, 9), (2025, 10), (2025, 11)] := by
  rw [(resolvePeriods_all_months ⟨2025, 8, 27⟩ ⟨2025, 11, 15⟩ (by decide) (by decide)
    (by decide) (by decide) (by decide)).1]
  decide

/-- C8 counterexample: joining 20-Aug-2025 lies strictly after current
10-Aug-2025, yet the resolver produces the single period Aug-2025, not the
empty sequence — the loop compares first-of-month anchors, which are equal
here. -/
theorem resolvePeriods_same_month_counterexample :
    pyDateLt ⟨2025, 8, 10⟩ ⟨2025, 8, 20⟩ = true ∧
    resolvePeriods ⟨2025, 8, 20⟩ ⟨2025, 8, 10⟩ = [(2025, 8)] := by
  decide

/-- C8 amended: the resolver returns the empty sequence exactly when the
joining date's first-of-month anchor lies strictly after the current date's
anchor (a joining date later in the same calendar month still yields that
single month). -/
theorem resolvePeriods_empty_of_future_month (j c : PyDate)
    (h : monthIndex (c.year, c.month) < monthIndex (j.year, j.month)) :
    resolvePeriods j c = [] := by
  simp only [resolvePeriods]
  rw [show monthIndex (c.year, c.month) + 1 - monthIndex (j.year, j.month) = 0 by omega]
  rfl

/-- Witness for amended C8: joining in Sep-2025 with current date in
Aug-2025 yields no periods. -/
theorem resolvePeriods_empty_witness :
    resolvePeriods ⟨2025, 9, 5⟩ ⟨2025, 8, 20⟩ = [] :=
  resolvePeriods_empty_of_future_month ⟨2025, 9, 5⟩ ⟨2025, 8, 20⟩ (by decide)

/-- Table lookup within bounds returns the `getD` value. -/
lemma get?_eq_getD {α : Type} (l : List α) (i : Nat) (d : α) (h : i < l.length) :
    l.get? i = some (l.getD i d) := by
  rw [List.get?_eq_get h, List.getD_eq_get l d h]

/-- The helper `two` agrees with the spec's two-digit spelling on 0–99. -/
lemma two_eq (n : ℤ) (h0 : 0 ≤ n) (h : n < 100) : two n = some (specSpellTwo n) := by
  by_cases h20 : n < 20
  · simp only [two, specSpellTwo, if_pos h20]
    exact get?_eq_getD ones n.toNat "" (by rw [show ones.length = 20 from rfl]; omega)
  · have ht := get?_eq_getD tens (n / 10).toNat "" (by rw [show tens.length = 10 from rfl]; omega)
    have ho := get?_eq_getD ones (n % 10).toNat "" (by rw [show ones.length = 20 from rfl]; omega)
    simp only [two, specSpellTwo, if_neg h20]
    rw [ht, ho]
    rfl

/-- The helper `three` agrees with the spec's group spelling on 0–1999 —
including the values 1000–1999 that only the crore group can take, where the
hundreds digit 10–19 is spelled from the teens row of the table. -/
lemma three_eq (n : ℤ) (h0 : 0 ≤ n) (h : n < 2000) : three n = some (specSpellGroup n) := by
  have h2 := two_eq (n % 100) (by omega) (by omega)
  have hh := get?_eq_getD ones (n / 100).toNat ""
    (by rw [show ones.length = 20 from rfl]; omega)
  by_cases h100 : 100 ≤ n <;> by_cases hm : n % 100 = 0
  · simp only [three, specSpellGroup, if_pos h100, if_pos hm]
    rw [hh]
    rfl
  · simp only [three, specSpellGroup, if_pos h100, if_neg hm]
    rw [hh, h2]
    rfl
  · simp only [three, specSpellGroup, if_neg h100, if_pos hm]
    rfl
  · simp only [three, specSpellGroup, if_neg h100, if_neg hm]
    rw [h2]
    rfl

/-- One scale group of `num_to_words_indian` evaluates to its spec spelling. -/
lemma part_eq (g : ℤ) (suf : String) (h0 : 0 ≤ g) (h : g < 2000) :
    (if g = 0 then pure [] else do
        let s ← three g
        pure [s ++ suf]) =
      some (if g = 0 then ([] : List String) else [specSpellGroup g ++ suf]) := by
  split_ifs with hg
  · rfl
  · rw [three_eq g h0 h]
    rfl

/-- The remainder group of `num_to_words_indian` evaluates to its spec
spelling. -/
lemma part4_eq (g : ℤ) (h0 : 0 ≤ g) (h : g < 2000) :
    (if g = 0 then pure [] else do
        let s ← three g
        pure [s]) =
      some (if g = 0 then ([] : List String) else [specSpellGroup g]) := by
  split_ifs with hg
  · rfl
  · rw [three_eq g h0 h]
    rfl

/-- On the inputs the localizer accepts, its output is exactly the spec's
crore/lakh/thousand/remainder decomposition, zero groups omitted, joined by
single spaces with the scale words appended. -/
lemma num_to_words_eq (n : ℤ) (h0 : 0 < n) (h : n < 20000000000) :
    num_to_words_indian n = some (specWords n) := by
  have hne : ¬ n = 0 := by omega
  have e2 : n % 10000000 % 100000 = n % 100000 := by omega
  have e3 : n % 100000 % 1000 = n % 1000 := by omega
  have h1 := part_eq (n / 10000000) " Crore" (by omega) (by omega)
  have h2 := part_eq (n % 10000000 / 100000) " Lakh" (by omega) (by omega)
  have h3 := part_eq (n % 100000 / 1000) " Thousand" (by omega) (by omega)
  have h4 := part4_eq (n % 1000) (by omega) (by omega)
  have t1 := three_eq (n / 10000000) (by omega) (by omega)
  have t2 := three_eq (n % 10000000 / 100000) (by omega) (by omega)
  have t3 := three_eq (n % 100000 / 1000) (by omega) (by omega)
  have t4 := three_eq (n % 1000) (by omega) (by omega)
  simp only [num_to_words_indian, specWords, specGroupList, if_neg hne, e2, e3,
    h1, h2, h3, h4, Option.some_bind, Option.pure_def]
  by_cases hc : n / 10000000 = 0 <;> by_cases hl : n % 10000000 / 100000 = 0 <;>
    by_cases ht : n % 100000 / 1000 = 0 <;> by_cases hr : n % 1000 = 0 <;>
    simp [hc, hl, ht, hr, t1, t2, t3, t4]

/-- C5 counterexample: the Numeral Localizer is not total on the non-negative
integers — at 20,000,000,000 (crore group 2000) the table lookup `ones[20]`
is out of range, so the code raises `IndexError` instead of returning a
string. -/
theorem num_to_words_fails_at_twenty_billion :
    (0:ℤ) ≤ 20000000000 ∧ num_to_words_indian 20000000000 = none := by
  decide

/-- C5 amended: the Numeral Localizer accepts every non-negative integer
strictly below 20,000,000,000 (crore group at most 1999) and returns a word
string for it. -/
theorem num_to_words_total (n : ℤ) (h0 : 0 ≤ n) (h : n < 20000000000) :
    (num_to_words_indian n).isSome := by
  rcases eq_or_lt_of_le h0 with h0' | h0'
  · rw [← h0']
    rfl
  · rw [num_to_words_eq n h0' h]
    rfl

/-- Witness for amended C5 at 0 and at a typical net-salary value. -/
theorem num_to_words_total_witness :
    (num_to_words_indian 0).isSome ∧ (num_to_words_indian 46582).isSome :=
  ⟨num_to_words_total 0 (by decide) (by decide),
   num_to_words_total 46582 (by decide) (by decide)⟩

/-- C6 counterexample: at 100,000,000,000 the localizer raises (result
`none`) rather than producing the decomposition the claim describes for
every positive integer. -/
theorem num_to_words_no_output_large :
    num_to_words_indian 100000000000 = none ∧
    num_to_words_indian 100000000000 ≠ some (specWords 100000000000) := by
  decide

/-- C6 amended: on every positive integer the localizer accepts (those below
20,000,000,000), its output is exactly the spec's description: the
crore/lakh/thousand/remainder decomposition, most significant first, zero
groups omitted, each group spelled from the ones/teens/tens table with a
"Hundred" suffix when ≥ 100, joined by single spaces with the scale word
appended directly after its group; and 0 maps to "Zero". -/
theorem num_to_words_matches_spec (n : ℤ) (h0 : 0 ≤ n) (h : n < 20000000000) :
    num_to_words_indian n = some (specWords n) := by
  rcases eq_or_lt_of_le h0 with h0' | h0'
  · rw [← h0']
    rfl
  · exact num_to_words_eq n h0' h

/-- Witness for amended C6 at a concrete value: 29325 is spelled
"Twenty Nine Thousand Three Hundred Twenty Five". -/
theorem num_to_words_matches_spec_witness :
    num_to_words_indian 29325 = some (specWords 29325) ∧
    specWords 29325 = "Twenty Nine Thousand Three Hundred Twenty Five" :=
  ⟨num_to_words_matches_spec 29325 (by decide) (by decide), by decide⟩

/-- Characterization of every successful run of the payslip computation: the
four unguarded parses and the words conversion succeeded, and the model is
exactly the record the code builds from them. -/
lemma create_payslip_pdf_spec (r : Row) (m : PayslipModel)
    (hm : create_payslip_pdf r = some m) :
    ∃ pb pt pfq pbr w,
      float_if_notna r.performance_bonus = some pb ∧
      float_if_notna r.professional_tax = some pt ∧
      float_if_notna r.pf = some pfq ∧
      float_if_notna r.performance_bonus_recovery = some pbr ∧
      num_to_words_indian (pythonRound
        (earn_total r pb - ded_total pt (if pfq > 0 then pfq else 0) pbr)) = some w ∧
      m = { earnings := earning_items r pb
            deductions := deduction_items pt (if pfq > 0 then pfq else 0) pbr
            total_working_days :=
              (parse_working_days r.total_working_days r.actual_payable_days).1
            actual_payable_days :=
              (parse_working_days r.total_working_days r.actual_payable_days).2
            loss_of_pay_days :=
              (parse_working_days r.total_working_days r.actual_payable_days).1 -
                (parse_working_days r.total_working_days r.actual_payable_days).2
            total_earn := earn_total r pb
            total_ded := ded_total pt (if pfq > 0 then pfq else 0) pbr
            net_salary :=
              earn_total r pb - ded_total pt (if pfq > 0 then pfq else 0) pbr
            net_in_words := w ++ " only" } := by
  unfold create_payslip_pdf at hm
  dsimp only at hm
  split at hm
  · exact absurd hm (by simp)
  next pb hpb =>
    split at hm
    · exact absurd hm (by simp)
    next pt hpt =>
      split at hm
      · exact absurd hm (by simp)
      next pfq hpf =>
        split at hm
        · exact absurd hm (by simp)
        next pbr hpbr =>
          split at hm
          · exact absurd hm (by simp)
          next w hw =>
            cases hm
            exact ⟨pb, pt, pfq, pbr, w, hpb, hpt, hpf, hpbr, hw, rfl⟩

/-- Concrete evaluation of the payslip computation on the template row. -/
lemma sample_compose : create_payslip_pdf sampleRow = some sampleModel := by
  have hw : num_to_words_indian 29325 =
      some "Twenty Nine Thousand Three Hundred Twenty Five" := by decide
  have hr : pythonRound ((29325 : ℚ)) = 29325 := by norm_num [pythonRound]
  have hs : "Twenty Nine Thousand Three Hundred Twenty Five" ++ " only" =
      "Twenty Nine Thousand Three Hundred Twenty Five only" := by decide
  norm_num [create_payslip_pdf, sampleRow, sampleModel, earning_items, earn_total,
    prorated_earnings, non_prorated_earnings, deduction_items, ded_total,
    parse_working_days, pyFloat, float_or_zero, float_if_notna, prorate, hr, hw, hs]

/-- Concrete evaluation of the payslip computation on the row with an
unparseable working-days cell. -/
lemma badDays_compose : create_payslip_pdf badDaysRow = some badDaysModel := by
  have hw : num_to_words_indian 10150 =
      some "Ten Thousand One Hundred Fifty" := by decide
  have hr : pythonRound ((10150 : ℚ)) = 10150 := by norm_num [pythonRound]
  have hs : "Ten Thousand One Hundred Fifty" ++ " only" =
      "Ten Thousand One Hundred Fifty only" := by decide
  norm_num [create_payslip_pdf, badDaysRow, sampleRow, badDaysModel, earning_items,
    earn_total, prorated_earnings, non_prorated_earnings, deduction_items, ded_total,
    parse_working_days, pyFloat, float_or_zero, float_if_notna, prorate, hr, hw, hs]

/-- C1: in every composed payslip model the accumulated total of earnings is
the exact sum of the displayed earning line items, and likewise for
deductions — no hidden adjustments. -/
theorem compose_totals_exact (r : Row) (m : PayslipModel)
    (hm : create_payslip_pdf r = some m) :
    m.total_earn = (m.earnings.map Prod.snd).sum ∧
    m.total_ded = (m.deductions.map Prod.snd).sum := by
  obtain ⟨pb, pt, pfq, pbr, w, _, _, _, _, _, hm'⟩ := create_payslip_pdf_spec r m hm
  subst hm'
  constructor
  · show earn_total r pb = ((earning_items r pb).map Prod.snd).sum
    unfold earn_total earning_items prorated_earnings non_prorated_earnings
    by_cases hpb : pb > 0 <;>
      simp [hpb, List.map_append, List.sum_append] <;> ring
  · show ded_total pt (if pfq > 0 then pfq else 0) pbr =
      ((deduction_items pt (if pfq > 0 then pfq else 0) pbr).map Prod.snd).sum
    unfold ded_total deduction_items
    by_cases h1 : (if pfq > 0 then pfq else 0) > 0 <;> by_cases h2 : pbr > 0 <;>
      simp [h1, h2, List.map_append, List.sum_append] <;> ring

/-- Witness for C1 on the template row. -/
theorem compose_totals_exact_witness :
    sampleModel.total_earn = (sampleModel.earnings.map Prod.snd).sum ∧
    sampleModel.total_ded = (sampleModel.deductions.map Prod.snd).sum :=
  compose_totals_exact sampleRow sampleModel sample_compose

/-- C2: in every composed model the net salary is exactly total earnings
minus total deductions, and the net-salary-in-words string is the Numeral
Localizer applied to the rounded net salary with " only" appended. -/
theorem compose_net_salary (r : Row) (m : PayslipModel)
    (hm : create_payslip_pdf r = some m) :
    m.net_salary = m.total_earn - m.total_ded ∧
    (num_to_words_indian (pythonRound m.net_salary)).map (fun s => s ++ " only") =
      some m.net_in_words := by
  obtain ⟨pb, pt, pfq, pbr, w, _, _, _, _, hw, hm'⟩ := create_payslip_pdf_spec r m hm
  subst hm'
  refine ⟨rfl, ?_⟩
  dsimp only
  rw [hw]
  rfl

/-- Witness for C2 on the template row. -/
theorem compose_net_salary_witness :
    sampleModel.net_salary = sampleModel.total_earn - sampleModel.total_ded ∧
    (num_to_words_indian (pythonRound sampleModel.net_salary)).map
        (fun s => s ++ " only") = some sampleModel.net_in_words :=
  compose_net_salary sampleRow sampleModel sample_compose

/-- C3: the earnings list is, in fixed order, the three prorated items, the
five verbatim items, then Performance Bonus iff strictly positive; the
deductions list is Professional Tax always, then PF iff strictly positive,
then Performance Bonus Recovery iff strictly positive. -/
theorem compose_line_items (r : Row) (m : PayslipModel) (pb pt pfq pbr : ℚ)
    (hpb : float_if_notna r.performance_bonus = some pb)
    (hpt : float_if_notna r.professional_tax = some pt)
    (hpf : float_if_notna r.pf = some pfq)
    (hpbr : float_if_notna r.performance_bonus_recovery = some pbr)
    (hm : create_payslip_pdf r = some m) :
    m.earnings =
      [("Basic",
         prorate (float_or_zero r.basic) m.total_working_days m.actual_payable_days),
       ("HRA",
         prorate (float_or_zero r.hra) m.total_working_days m.actual_payable_days),
       ("Special Allowance",
         prorate (float_or_zero r.special_allowance) m.total_working_days
           m.actual_payable_days),
       ("Medical Allowance", float_or_zero r.medical_allowance),
       ("Transport Allowance", float_or_zero r.transport_allowance),
       ("Professional Allowance", float_or_zero r.professional_allowance),
       ("Performance Pay", float_or_zero r.performance_pay),
       ("Courier Reimb", float_or_zero r.courier_reimb)] ++
      (if pb > 0 then [("Performance Bonus", pb)] else []) ∧
    m.deductions =
      [("Professional Tax", pt)] ++
      (if pfq > 0 then [("PF (Provident Fund)", pfq)] else []) ++
      (if pbr > 0 then [("Performance Bonus", pbr)] else []) := by
  obtain ⟨pb', pt', pfq', pbr', w, hpb', hpt', hpf', hpbr', hw, hm'⟩ :=
    create_payslip_pdf_spec r m hm
  rw [hpb] at hpb'
  rw [hpt] at hpt'
  rw [hpf] at hpf'
  rw [hpbr] at hpbr'
  cases hpb'
  cases hpt'
  cases hpf'
  cases hpbr'
  subst hm'
  constructor
  · show earning_items r pb = _
    unfold earning_items prorated_earnings non_prorated_earnings
    rfl
  · show deduction_items pt (if pfq > 0 then pfq else 0) pbr = _
    unfold deduction_items
    by_cases hq : pfq > 0 <;> simp [hq]

/-- Witness for C3 on the template row: Performance Bonus (1000) and PF (500)
appear, Performance Bonus Recovery (0) does not, Professional Tax (200) is
always present. -/
theorem compose_line_items_witness :
    sampleModel.earnings =
      [("Basic",
         prorate (float_or_zero sampleRow.basic) sampleModel.total_working_days
           sampleModel.actual_payable_days),
       ("HRA",
         prorate (float_or_zero sampleRow.hra) sampleModel.total_working_days
           sampleModel.actual_payable_days),
       ("Special Allowance",
         prorate (float_or_zero sampleRow.special_allowance)
           sampleModel.total_working_days sampleModel.actual_payable_days),
       ("Medical Allowance", float_or_zero sampleRow.medical_allowance),
       ("Transport Allowance", float_or_zero sampleRow.transport_allowance),
       ("Professional Allowance", float_or_zero sampleRow.professional_allowance),
       ("Performance Pay", float_or_zero sampleRow.performance_pay),
       ("Courier Reimb", float_or_zero sampleRow.courier_reimb)] ++
      (if (1000 : ℚ) > 0 then [("Performance Bonus", (1000 : ℚ))] else []) ∧
    sampleModel.deductions =
      [("Professional Tax", (200 : ℚ))] ++
      (if (500 : ℚ) > 0 then [("PF (Provident Fund)", (500 : ℚ))] else []) ++
      (if (0 : ℚ) > 0 then [("Performance Bonus", (0 : ℚ))] else []) :=
  compose_line_items sampleRow sampleModel 1000 200 500 0 rfl rfl rfl rfl
    sample_compose

/-- C9: an unparseable Professional Tax cell makes the payslip computation
raise (model result `none`) instead of treating the cell as `0` — the
`float(...)` at src/hrms.py line 431 is not guarded by `try/except`, so the
`ValueError` escapes `create_payslip_pdf` and aborts the run. -/
theorem compose_fails_on_unparseable_tax :
    create_payslip_pdf badTaxRow = none := by
  rfl

/-- C10: when either working-day cell is an unparseable string, both day
figures are zeroed together, the loss-of-pay figure is 0, the three prorated
earning lines are 0 and the five verbatim earning lines keep their full
amounts. -/
theorem compose_bad_day_cells (r : Row) (m : PayslipModel)
    (hdays : (∃ s, r.total_working_days = Cell.text s) ∨
      (∃ s, r.actual_payable_days = Cell.text s))
    (hm : create_payslip_pdf r = some m) :
    m.total_working_days = 0 ∧ m.actual_payable_days = 0 ∧
    m.loss_of_pay_days = 0 ∧
    m.earnings.take 3 = [("Basic", 0), ("HRA", 0), ("Special Allowance", 0)] ∧
    (m.earnings.drop 3).take 5 =
      [("Medical Allowance", float_or_zero r.medical_allowance),
       ("Transport Allowance", float_or_zero r.transport_allowance),
       ("Professional Allowance", float_or_zero r.professional_allowance),
       ("Performance Pay", float_or_zero r.performance_pay),
       ("Courier Reimb", float_or_zero r.courier_reimb)] := by
  have hd : parse_working_days r.total_working_days r.actual_payable_days = (0, 0) := by
    rcases hdays with ⟨s, hs⟩ | ⟨s, hs⟩
    · cases hx : pyFloat r.actual_payable_days <;>
        simp [parse_working_days, hs, pyFloat, hx]
    · cases hx : pyFloat r.total_working_days <;>
        simp [parse_working_days, hs, pyFloat, hx]
  obtain ⟨pb, pt, pfq, pbr, w, _, _, _, _, _, hm'⟩ := create_payslip_pdf_spec r m hm
  subst hm'
  refine ⟨?_, ?_, ?_, ?_, ?_⟩
  · show (parse_working_days r.total_working_days r.actual_payable_days).1 = 0
    rw [hd]
  · show (parse_working_days r.total_working_days r.actual_payable_days).2 = 0
    rw [hd]
  · show (parse_working_days r.total_working_days r.actual_payable_days).1 -
      (parse_working_days r.total_working_days r.actual_payable_days).2 = 0
    rw [hd]
    norm_num
  · show (earning_items r pb).take 3 = _
    simp [earning_items, prorated_earnings, hd, prorate]
  · show ((earning_items r pb).drop 3).take 5 = _
    simp [earning_items, prorated_earnings, non_prorated_earnings, hd, prorate]

/-- Witness for C10 on the row whose Total Working Days cell reads "N/A". -/
theorem compose_bad_day_cells_witness :
    badDaysModel.total_working_days = 0 ∧ badDaysModel.actual_payable_days = 0 ∧
    badDaysModel.loss_of_pay_days = 0 ∧
    badDaysModel.earnings.take 3 =
      [("Basic", 0), ("HRA", 0), ("Special Allowance", 0)] ∧
    (badDaysModel.earnings.drop 3).take 5 =
      [("Medical Allowance", float_or_zero badDaysRow.medical_allowance),
       ("Transport Allowance", float_or_zero badDaysRow.transport_allowance),
       ("Professional Allowance", float_or_zero badDaysRow.professional_allowance),
       ("Performance Pay", float_or_zero badDaysRow.performance_pay),
       ("Courier Reimb", float_or_zero badDaysRow.courier_reimb)] :=
  compose_bad_day_cells badDaysRow badDaysModel (Or.inl ⟨"N/A", rfl⟩) badDays_compose

end Hrms
